import Mathlib

/-!
Verification development for the splendor repository (src/splendor).

The embedding below is a shallow translation of the modules core.py, player.py
and game.py into Lean.  Conventions used throughout:

* Python gem-name strings ("black", ..., "yellow") become the `Color` type.
  The repository is mid-refactor: game.py and player.py still refer to the
  removed classes TokenType/DevCardType and to renamed methods
  (count_type -> count_token, player.get_token_cache ->
  player.get_current_token_cache, DevCard keyword t -> gem).  These pure
  renames are resolved to their evident referents; genuine semantic behaviour
  (guard order, truthiness tests, the deck-container layout of
  GameState.__init__, in-place mutation of snapshots before cloning) is kept
  exactly as written in the source.
* Python dicts keyed by gems become total functions Color -> Int (absent key
  counts as 0, matching dict.get), except where key presence and insertion
  order are observable (the "tokens needed" dict of
  PlayerTokenCache._purchase_dev_card_tokens_needed), which is kept as an
  ordered association list with dict-style accumulate-on-add semantics.
* Methods that can raise return either Except Err, or a pair
  (Option Err) x state when the Python method can leave a partial in-place
  mutation behind at the moment the exception is raised.
* The in-place mutation pattern of the action layer (mutate the current
  snapshot's component object, then deep-copy the snapshot and re-attach the
  same component object, then append) is modelled value-wise: the last history
  entry is replaced by the mutated snapshot and the appended snapshot equals
  it, which is exactly the observable content of the two aliased entries.
-/

/-- The six gem colors of core.py (GEM_NAME_ALL_STR_DICT keys). -/
inductive Color where
  | black
  | blue
  | green
  | red
  | white
  | yellow
  deriving DecidableEq, Repr

/-- List of all six colors, commons first, matching GEM_NAME_ALL_STR_DICT. -/
def allColors : List Color :=
  [Color.black, Color.blue, Color.green, Color.red, Color.white, Color.yellow]

/-- The five common colors (GEM_NAME_COMMON_STR_DICT keys). -/
def commonColors : List Color :=
  [Color.black, Color.blue, Color.green, Color.red, Color.white]

/-- is_joker from core.py: gem_str == "yellow". -/
def is_joker (c : Color) : Bool := c == Color.yellow

/-- Distinct raise sites of core.py / player.py / game.py, one constructor per
distinct exception message (or Python builtin exception type). -/
inductive Err where
  /-- TokenCache.remove: "{how_many} of token type {token} not found". -/
  | tokenQuantityNotFound (c : Color) (n : Int)
  /-- DevCardReserve.add: "cannot add card to DevCardReserve: at max". -/
  | reserveAtMaxAdd
  /-- PlayerTokenCache.purchase_dev_card: "insufficient tokens to purchase". -/
  | insufficientFundsCore
  /-- GameTokenCache.fill: "invalid players_count". -/
  | invalidPlayersCount
  /-- Python IndexError from list.pop / list indexing out of range. -/
  | listIndexError
  /-- Player.can_fit_tokens: "number of tokens to add cannot be negative". -/
  | negativeTokenCount
  /-- Player.action_take_tokens / game-level capacity check:
  "not enough space in player's token cache to add {n} tokens". -/
  | playerCacheNoSpace (n : Nat)
  /-- Player.action_reserve_dev_card:
  "not enough space in this player's token cache to add a token". -/
  | tokenCacheNoSpaceOne
  /-- take-three/take-two: "chosen tokens must be all different". -/
  | duplicateTokens
  /-- take-three/take-two: "chosen tokens must not be jokers". -/
  | jokerNotAllowed
  /-- Player.action_reserve_dev_card:
  "not enough space in player's dev card reserve to add a card". -/
  | playerReserveNoSpace
  /-- player/game purchase check: "cannot purchase dev card: insufficient tokens". -/
  | cannotPurchaseInsufficient
  /-- Python AttributeError from calling a method on None (empty history). -/
  | noneAttribute
  /-- Game.action_take_three/two_tokens:
  "not enough tokens of type {t} in the game's token cache". -/
  | notEnoughTokens (c : Color)
  /-- Game.action_take_two_tokens:
  "cannot take two tokens from a stack with fewer than 4". -/
  | stackTooLow
  /-- Game.action_reserve_dev_card: "player at max reserve cards". -/
  | playerAtMaxReserve
  /-- Game reserve/purchase: "could not find card in given deck". -/
  | cardNotFound
  /-- GameState.get_dev_card_deck / set_dev_card_deck: "no such dev card deck". -/
  | noSuchDeck
  /-- Python AttributeError: the tuple stored in GameState.dev_card_decks has
  no attribute find_card. -/
  | tupleNoFindCard
  /-- History revert: "state number cannot be negative". -/
  | stateNoNotPositive
  /-- History revert: "state number cannot be greater than the current state number". -/
  | stateNoTooLarge
  deriving DecidableEq, Repr

/-- Boolean discriminator for Except results. -/
def isError {ε α : Type _} : Except ε α → Bool
  | .error _ => true
  | .ok _ => false

/-! ## TokenCache (core.py) -/

/-- TokenCache of core.py: the dict Token -> count, modelled as a total
function with 0 for absent keys (dict.get's None and a stored 0 behave the
same in every truthiness test of the source). -/
structure TokenCache where
  d : Color → Int

/-- Pointwise update helper for the dict assignment self.d[token] = v. -/
def TokenCache.set (tc : TokenCache) (c : Color) (v : Int) : TokenCache :=
  ⟨fun c2 => if c2 = c then v else tc.d c2⟩

/-- TokenCache.count_token: dict.get with 0 for falsy values. -/
def TokenCache.count_token (tc : TokenCache) (c : Color) : Int := tc.d c

/-- TokenCache.add_by_name: self.d[token] = setdefault(token, 0) + how_many. -/
def TokenCache.add_by_name (tc : TokenCache) (c : Color) (n : Int) : TokenCache :=
  tc.set c (tc.d c + n)

/-- TokenCache.remove: succeeds iff self.d.get(token) is truthy (non-None and
nonzero) and at least how_many; on failure the cache is untouched and the
insufficient-quantity exception is raised. -/
def TokenCache.remove (tc : TokenCache) (c : Color) (n : Int) : Option Err × TokenCache :=
  if tc.d c ≠ 0 ∧ n ≤ tc.d c then
    (none, tc.set c (tc.d c - n))
  else
    (some (Err.tokenQuantityNotFound c n), tc)

/-- TokenCache.count: sum of all stored counts. -/
def TokenCache.count (tc : TokenCache) : Int :=
  (allColors.map tc.d).sum

/-- PLAYER_TOKEN_CACHE_MAX of core.py. -/
def PLAYER_TOKEN_CACHE_MAX : Int := 10

/-- PlayerTokenCache.is_max: count() == PLAYER_TOKEN_CACHE_MAX. -/
def TokenCache.is_max (tc : TokenCache) : Bool :=
  tc.count == PLAYER_TOKEN_CACHE_MAX

/-- PlayerTokenCache.count_until_max: max(PLAYER_TOKEN_CACHE_MAX - count(), 0). -/
def TokenCache.count_until_max (tc : TokenCache) : Int :=
  max (PLAYER_TOKEN_CACHE_MAX - tc.count) 0

/-! ## DevCard, DevCardDeck, DevCardReserve, DevCardCache (core.py) -/

/-- DevCard of core.py.  The cost dict is an ordered association list of
(color, required count) pairs; real cost dicts have unique keys and positive
counts.  Equality is field-wise (derived), matching DevCard.__eq__. -/
structure DevCard where
  level : Nat
  gem : Color
  ppoints : Nat
  cost : List (Color × Nat)
  deriving DecidableEq, Repr

/-- UPFACING_CARDS_LEN of core.py. -/
def UPFACING_CARDS_LEN : Nat := 4

/-- DevCardDeck of core.py: level plus the flat card list, indices 0..3 facing. -/
structure DevCardDeck where
  level : Nat
  l : List DevCard
  deriving DecidableEq, Repr

/-- DevCardDeck.count. -/
def DevCardDeck.count (d : DevCardDeck) : Nat := d.l.length

/-- DevCardDeck.get_facing: self.l[0:min(count, UPFACING_CARDS_LEN)]. -/
def DevCardDeck.get_facing (d : DevCardDeck) : List DevCard :=
  d.l.take (min d.count UPFACING_CARDS_LEN)

/-- DevCardDeck.find_card: first index holding an equal card, or -1. -/
def DevCardDeck.find_card (d : DevCardDeck) (card : DevCard) : Int :=
  match d.l.findIdx? (fun c => c = card) with
  | some i => (i : Int)
  | none => -1

/-- DevCardDeck.pop_by_idx: list.pop(idx) for a nonnegative index, raising
IndexError when the index is out of range. -/
def DevCardDeck.pop_by_idx (d : DevCardDeck) (idx : Nat) : Except Err (DevCard × DevCardDeck) :=
  match d.l.get? idx with
  | some card => .ok (card, ⟨d.level, d.l.eraseIdx idx⟩)
  | none => .error Err.listIndexError

/-- DEV_CARD_RESERVE_COUNT_MAX of core.py. -/
def DEV_CARD_RESERVE_COUNT_MAX : Nat := 3

/-- DevCardReserve of core.py: plain card list. -/
structure DevCardReserve where
  l : List DevCard
  deriving DecidableEq, Repr

/-- DevCardReserve.is_max: len >= DEV_CARD_RESERVE_COUNT_MAX. -/
def DevCardReserve.is_max (r : DevCardReserve) : Bool :=
  decide (DEV_CARD_RESERVE_COUNT_MAX ≤ r.l.length)

/-- DevCardReserve.add: raise at max, else append. -/
def DevCardReserve.add (r : DevCardReserve) (card : DevCard) : Except Err DevCardReserve :=
  if r.is_max then .error Err.reserveAtMaxAdd else .ok ⟨r.l ++ [card]⟩

/-- DevCardCache of core.py (purchased cards): dict gem -> card list, modelled
as a total function with [] for absent keys. -/
structure DevCardCache where
  d : Color → List DevCard

/-- DevCardCache.add: append the card to the list at its gem. -/
def DevCardCache.add (cache : DevCardCache) (card : DevCard) : DevCardCache :=
  ⟨fun g => if g = card.gem then cache.d card.gem ++ [card] else cache.d g⟩

/-- DevCardCache.count. -/
def DevCardCache.count (cache : DevCardCache) : Nat :=
  (allColors.map (fun g => (cache.d g).length)).sum

/-! ## Joker-aware purchase logic of PlayerTokenCache (core.py lines 1054-1090) -/

/-- Dict-style add on an ordered association list: if the key exists, its value
is incremented in place, else the pair is appended.  This mirrors
add_by_name's setdefault-and-assign on the Python dict of the
"tokens needed" cache, where key presence and insertion order are observable
in purchase_dev_card's removal loop. -/
def alistAdd (m : List (Color × Int)) (c : Color) (n : Int) : List (Color × Int) :=
  if m.any (fun p => p.1 = c) then
    m.map (fun p => if p.1 = c then (p.1, p.2 + n) else p)
  else
    m ++ [(c, n)]

/-- The loop body of PlayerTokenCache._purchase_dev_card_tokens_needed:
for each (gem, cost) entry of the card's cost dict, record
min(cost, owned) of that gem and accumulate the shortfall into the
jokers_needed counter. -/
def tokens_needed_loop (cache : TokenCache) :
    List (Color × Nat) → List (Color × Int) × Int → List (Color × Int) × Int
  | [], acc => acc
  | (g, costC) :: rest, (needed, jn) =>
      let cacheC := cache.count_token g
      tokens_needed_loop cache rest
        (alistAdd needed g (min (costC : Int) cacheC),
         if (costC : Int) > cacheC then jn + ((costC : Int) - cacheC) else jn)

/-- PlayerTokenCache._purchase_dev_card_tokens_needed: the ordered
(color, count) pairs to remove, or none when the aggregated shortfall exceeds
the owned jokers.  Note the joker entry is always appended, even when zero. -/
def TokenCache.tokens_needed (cache : TokenCache) (card : DevCard) :
    Option (List (Color × Int)) :=
  let res := tokens_needed_loop cache card.cost ([], 0)
  if res.2 > cache.count_token Color.yellow then none
  else some (alistAdd res.1 Color.yellow res.2)

/-- PlayerTokenCache.can_purchase_dev_card: tokens_needed is not None. -/
def TokenCache.can_purchase_dev_card (cache : TokenCache) (card : DevCard) : Bool :=
  (cache.tokens_needed card).isSome

/-- The removal loop of PlayerTokenCache.purchase_dev_card: remove each needed
(color, count) entry in order; the first failing remove raises and leaves the
removes already performed in place. -/
def purchase_loop : List (Color × Int) → TokenCache → Option Err × TokenCache
  | [], cache => (none, cache)
  | (g, n) :: rest, cache =>
      match cache.remove g n with
      | (some e, cache') => (some e, cache')
      | (none, cache') => purchase_loop rest cache'

/-- PlayerTokenCache.purchase_dev_card: raise the insufficient-funds error when
tokens_needed is None, else remove the needed entries one by one. -/
def TokenCache.purchase_dev_card (cache : TokenCache) (card : DevCard) :
    Option Err × TokenCache :=
  match cache.tokens_needed card with
  | none => (some Err.insufficientFundsCore, cache)
  | some needed => purchase_loop needed cache

/-- TOKEN_COUNT_MAP of core.py: players count -> per-color token count. -/
def TOKEN_COUNT_MAP (players_count : Nat) : Int :=
  if players_count = 2 then 4 else if players_count = 3 then 5 else 7

/-- GameTokenCache.fill: common colors get TOKEN_COUNT_MAP[players_count],
yellow gets 5; invalid players_count raises. -/
def GameTokenCache.fill (players_count : Nat) : Except Err TokenCache :=
  if players_count = 2 ∨ players_count = 3 ∨ players_count = 4 then
    .ok ⟨fun c => if c = Color.yellow then 5 else TOKEN_COUNT_MAP players_count⟩
  else
    .error Err.invalidPlayersCount

/-- The shared token pool of a fresh 2-player game (GameTokenCache(2)):
4 of each common color and 5 jokers. -/
def game_token_cache_2p : TokenCache :=
  ⟨fun c => if c = Color.yellow then 5 else TOKEN_COUNT_MAP 2⟩

/-! ## Noble, GameState, GameStateHistory (core.py / game.py) -/

/-- Noble of core.py (image field omitted: always None in game data). -/
structure Noble where
  ppoints : Nat
  cost : List (Color × Nat)
  deriving DecidableEq, Repr

/-- GameState of game.py.  Faithful to the source: __init__ stores
dev_card_decks = [(deck1, deck2, deck3)], a ONE-element list holding a
3-tuple (game.py line 97), not a three-element list of decks. -/
structure GameState where
  dev_card_decks : List (DevCardDeck × DevCardDeck × DevCardDeck)
  nobles_in_play : List Noble
  game_token_cache : TokenCache

/-- GameState.__init__ applied to three decks, nobles and a token cache. -/
def GameState.mk3 (d1 d2 d3 : DevCardDeck) (nobles : List Noble)
    (cache : TokenCache) : GameState :=
  { dev_card_decks := [(d1, d2, d3)]
    nobles_in_play := nobles
    game_token_cache := cache }

/-- GameState.get_dev_card_deck: guard (no-1) < 0 or (no-1) > len(decks), then
index.  Because __init__ stores a singleton list holding a tuple, no=1 returns
the tuple, no=2 hits an uncaught IndexError and no=3 trips the guard. -/
def GameState.get_dev_card_deck (gs : GameState) (no : Int) :
    Except Err (DevCardDeck × DevCardDeck × DevCardDeck) :=
  if no - 1 < 0 ∨ no - 1 > (gs.dev_card_decks.length : Int) then
    .error Err.noSuchDeck
  else
    match gs.dev_card_decks.get? (no - 1).toNat with
    | some t => .ok t
    | none => .error Err.listIndexError

/-- GameStateHistory of game.py: the snapshot list. -/
structure GameStateHistory where
  l : List GameState

/-- GameStateHistory.append. -/
def GameStateHistory.append (h : GameStateHistory) (s : GameState) : GameStateHistory :=
  ⟨h.l ++ [s]⟩

/-- GameStateHistory.get_current_state: last snapshot or None. -/
def GameStateHistory.get_current_state (h : GameStateHistory) : Option GameState :=
  h.l.getLast?

/-- GameStateHistory.get_current_state_no: one-based state number. -/
def GameStateHistory.get_current_state_no (h : GameStateHistory) : Nat :=
  h.l.length

/-- GameStateHistory.revert: reject state_no <= 0 and state_no > len, else
truncate to the first state_no snapshots. -/
def GameStateHistory.revert (h : GameStateHistory) (state_no : Int) :
    Except Err GameStateHistory :=
  if state_no ≤ 0 then .error Err.stateNoNotPositive
  else if state_no > (h.l.length : Int) then .error Err.stateNoTooLarge
  else .ok ⟨h.l.take state_no.toNat⟩

/-! ## PlayerState, PlayerStateHistory (player.py) -/

/-- PlayerState of player.py. -/
structure PlayerState where
  token_cache : TokenCache
  dev_card_cache : DevCardCache
  dev_card_reserve : DevCardReserve

/-- A fresh PlayerState with empty caches and reserve, as built by the
doctests of player.py before the first action. -/
def PlayerState.initial : PlayerState :=
  { token_cache := ⟨fun _ => 0⟩
    dev_card_cache := ⟨fun _ => []⟩
    dev_card_reserve := ⟨[]⟩ }

/-- PlayerStateHistory of player.py: the snapshot list. -/
structure PlayerStateHistory where
  l : List PlayerState

/-- PlayerStateHistory.append. -/
def PlayerStateHistory.append (h : PlayerStateHistory) (s : PlayerState) : PlayerStateHistory :=
  ⟨h.l ++ [s]⟩

/-- PlayerStateHistory.get_current_state: last snapshot or None. -/
def PlayerStateHistory.get_current_state (h : PlayerStateHistory) : Option PlayerState :=
  h.l.getLast?

/-- PlayerStateHistory.get_current_state_no: one-based state number. -/
def PlayerStateHistory.get_current_state_no (h : PlayerStateHistory) : Nat :=
  h.l.length

/-- PlayerStateHistory.revert: same contract as GameStateHistory.revert. -/
def PlayerStateHistory.revert (h : PlayerStateHistory) (state_no : Int) :
    Except Err PlayerStateHistory :=
  if state_no ≤ 0 then .error Err.stateNoNotPositive
  else if state_no > (h.l.length : Int) then .error Err.stateNoTooLarge
  else .ok ⟨h.l.take state_no.toNat⟩

/-! ## Player action layer (player.py)

A Player is its name plus its PlayerStateHistory; the name plays no role in
any claim, so the actions are defined directly on the history.  Successful
actions mirror the source's in-place mutation followed by
clone-and-append: the current (last) snapshot's mutated components change in
place, and the appended clone carries the same component values, so the new
history is dropLast ++ [mutated, mutated]. -/

/-- Player.can_fit_tokens: reject negative counts, read the current token
cache (AttributeError on an empty history), compare against the ceiling. -/
def Player.can_fit_tokens (p : PlayerStateHistory) (n : Int) : Except Err Bool :=
  if n < 0 then .error Err.negativeTokenCount
  else
    match p.get_current_state with
    | none => .error Err.noneAttribute
    | some ps => .ok (decide (ps.token_cache.count + n ≤ PLAYER_TOKEN_CACHE_MAX))

/-- Player.action_take_tokens: check capacity for the whole list, then add one
token per listed color to the current cache (in place) and append the clone. -/
def Player.action_take_tokens (p : PlayerStateHistory) (lst : List Color) :
    Option Err × PlayerStateHistory :=
  match p.get_current_state with
  | none => (some Err.noneAttribute, p)
  | some ps =>
      if ps.token_cache.count + (lst.length : Int) ≤ PLAYER_TOKEN_CACHE_MAX then
        let cache' := lst.foldl (fun tc c => tc.add_by_name c 1) ps.token_cache
        let ps' := { ps with token_cache := cache' }
        (none, ⟨p.l.dropLast ++ [ps', ps']⟩)
      else
        (some (Err.playerCacheNoSpace lst.length), p)

/-- Player.action_take_three_tokens: duplicate and joker validation, then
action_take_tokens on the three colors. -/
def Player.action_take_three_tokens (p : PlayerStateHistory) (c1 c2 c3 : Color) :
    Option Err × PlayerStateHistory :=
  if c1 = c2 ∨ c1 = c3 ∨ c2 = c3 then (some Err.duplicateTokens, p)
  else if is_joker c1 || is_joker c2 || is_joker c3 then (some Err.jokerNotAllowed, p)
  else Player.action_take_tokens p [c1, c2, c3]

/-- Player.action_take_two_tokens: joker validation, then action_take_tokens
on the doubled color. -/
def Player.action_take_two_tokens (p : PlayerStateHistory) (c : Color) :
    Option Err × PlayerStateHistory :=
  if is_joker c then (some Err.jokerNotAllowed, p)
  else Player.action_take_tokens p [c, c]

/-- Player.action_reserve_dev_card: reject a full reserve, then a full token
cache; otherwise append the card to the reserve, add one joker token (both in
place on the current snapshot) and append the clone. -/
def Player.action_reserve_dev_card (p : PlayerStateHistory) (card : DevCard) :
    Option Err × PlayerStateHistory :=
  match p.get_current_state with
  | none => (some Err.noneAttribute, p)
  | some ps =>
      if ps.dev_card_reserve.is_max then (some Err.playerReserveNoSpace, p)
      else if ps.token_cache.count_until_max < 1 then (some Err.tokenCacheNoSpaceOne, p)
      else
        let res' : DevCardReserve := ⟨ps.dev_card_reserve.l ++ [card]⟩
        let cache' := ps.token_cache.add_by_name Color.yellow 1
        let ps' := { ps with dev_card_reserve := res', token_cache := cache' }
        (none, ⟨p.l.dropLast ++ [ps', ps']⟩)

/-- Player.action_purchase_dev_card: check affordability, then add the card to
the purchased-card cache and run the token removal loop, both in place on the
current snapshot.  When the removal loop raises midway the current snapshot
keeps the added card and the partially removed tokens, and no clone is
appended; on success the clone is appended. -/
def Player.action_purchase_dev_card (p : PlayerStateHistory) (card : DevCard) :
    Option Err × PlayerStateHistory :=
  match p.get_current_state with
  | none => (some Err.noneAttribute, p)
  | some ps =>
      if ps.token_cache.can_purchase_dev_card card then
        let dcc' := ps.dev_card_cache.add card
        match ps.token_cache.purchase_dev_card card with
        | (some e, cachePart) =>
            (some e, ⟨p.l.dropLast ++ [{ ps with dev_card_cache := dcc', token_cache := cachePart }]⟩)
        | (none, cacheDone) =>
            let ps' := { ps with dev_card_cache := dcc', token_cache := cacheDone }
            (none, ⟨p.l.dropLast ++ [ps', ps']⟩)
      else
        (some Err.cannotPurchaseInsufficient, p)

/-! ## Game action layer (game.py) -/

/-- TAKE_TWO_TOKENS_MINIMUM of game.py. -/
def TAKE_TWO_TOKENS_MINIMUM : Int := 4

/-- The Game aggregate of game.py restricted to what the actions touch: the
shared GameStateHistory and the acting player's PlayerStateHistory (the player
list, current player index and round index play no role in any claim). -/
structure Game where
  game_state_history : GameStateHistory
  player : PlayerStateHistory

/-- Helper for the game-level loop removing one token per listed color from
the shared cache, propagating the first failure with the partial state. -/
def game_remove_tokens : List Color → TokenCache → Option Err × TokenCache
  | [], cache => (none, cache)
  | c :: rest, cache =>
      match cache.remove c 1 with
      | (some e, cache') => (some e, cache')
      | (none, cache') => game_remove_tokens rest cache'

/-- Game.action_take_three_tokens: duplicate check, joker check, player
capacity check, shared-pool availability checks, then the player-level action
followed by the removal of the three tokens from the shared cache (in place on
the current game snapshot) and the append of the cloned game state. -/
def Game.action_take_three_tokens (g : Game) (c1 c2 c3 : Color) : Option Err × Game :=
  if c1 = c2 ∨ c1 = c3 ∨ c2 = c3 then (some Err.duplicateTokens, g)
  else if is_joker c1 || is_joker c2 || is_joker c3 then (some Err.jokerNotAllowed, g)
  else
    match Player.can_fit_tokens g.player 3 with
    | .error e => (some e, g)
    | .ok false => (some (Err.playerCacheNoSpace 3), g)
    | .ok true =>
        match g.game_state_history.get_current_state with
        | none => (some Err.noneAttribute, g)
        | some gs =>
            if gs.game_token_cache.count_token c1 < 1 then (some (Err.notEnoughTokens c1), g)
            else if gs.game_token_cache.count_token c2 < 1 then (some (Err.notEnoughTokens c2), g)
            else if gs.game_token_cache.count_token c3 < 1 then (some (Err.notEnoughTokens c3), g)
            else
              match Player.action_take_three_tokens g.player c1 c2 c3 with
              | (some e, p') => (some e, { g with player := p' })
              | (none, p') =>
                  match game_remove_tokens [c1, c2, c3] gs.game_token_cache with
                  | (some e, cachePart) =>
                      (some e,
                       { game_state_history :=
                           ⟨g.game_state_history.l.dropLast ++
                             [{ gs with game_token_cache := cachePart }]⟩
                         player := p' })
                  | (none, cache') =>
                      let gs' := { gs with game_token_cache := cache' }
                      (none,
                       { game_state_history :=
                           ⟨g.game_state_history.l.dropLast ++ [gs', gs']⟩
                         player := p' })

/-- Game.action_take_two_tokens: joker check, player capacity check, the
availability check (at least 2 in the stack), the house-rule check (at least
TAKE_TWO_TOKENS_MINIMUM in the stack), then the player-level action followed
by the removal of two tokens from the shared cache and the append of the
cloned game state. -/
def Game.action_take_two_tokens (g : Game) (c : Color) : Option Err × Game :=
  if is_joker c then (some Err.jokerNotAllowed, g)
  else
    match Player.can_fit_tokens g.player 2 with
    | .error e => (some e, g)
    | .ok false => (some (Err.playerCacheNoSpace 2), g)
    | .ok true =>
        match g.game_state_history.get_current_state with
        | none => (some Err.noneAttribute, g)
        | some gs =>
            if gs.game_token_cache.count_token c < 2 then (some (Err.notEnoughTokens c), g)
            else if gs.game_token_cache.count_token c < TAKE_TWO_TOKENS_MINIMUM then
              (some Err.stackTooLow, g)
            else
              match Player.action_take_two_tokens g.player c with
              | (some e, p') => (some e, { g with player := p' })
              | (none, p') =>
                  match game_remove_tokens [c, c] gs.game_token_cache with
                  | (some e, cachePart) =>
                      (some e,
                       { game_state_history :=
                           ⟨g.game_state_history.l.dropLast ++
                             [{ gs with game_token_cache := cachePart }]⟩
                         player := p' })
                  | (none, cache') =>
                      let gs' := { gs with game_token_cache := cache' }
                      (none,
                       { game_state_history :=
                           ⟨g.game_state_history.l.dropLast ++ [gs', gs']⟩
                         player := p' })

/-- Game.action_reserve_dev_card: reserve ceiling check, player capacity
check, then the deck lookup.  Because GameState stores its decks as a
singleton list holding a 3-tuple, the lookup yields the tuple for level 1
(whose find_card attribute access then raises AttributeError), an IndexError
for level 2 and the no-such-deck error for level 3 and beyond, so the action
never reaches the card removal. -/
def Game.action_reserve_dev_card (g : Game) (card : DevCard) : Option Err × Game :=
  match g.player.get_current_state with
  | none => (some Err.noneAttribute, g)
  | some ps =>
      if ps.dev_card_reserve.is_max then (some Err.playerAtMaxReserve, g)
      else
        match Player.can_fit_tokens g.player 1 with
        | .error e => (some e, g)
        | .ok false => (some (Err.playerCacheNoSpace 1), g)
        | .ok true =>
            match g.game_state_history.get_current_state with
            | none => (some Err.noneAttribute, g)
            | some gs =>
                match gs.get_dev_card_deck (card.level : Int) with
                | .error e => (some e, g)
                | .ok _t => (some Err.tupleNoFindCard, g)

/-- Game.action_purchase_dev_card: affordability check on the player's current
token cache, then the deck lookup, which fails for every level exactly as in
Game.action_reserve_dev_card, so the action never reaches the card removal. -/
def Game.action_purchase_dev_card (g : Game) (card : DevCard) : Option Err × Game :=
  match g.player.get_current_state with
  | none => (some Err.noneAttribute, g)
  | some ps =>
      if ps.token_cache.can_purchase_dev_card card then
        match g.game_state_history.get_current_state with
        | none => (some Err.noneAttribute, g)
        | some gs =>
            match gs.get_dev_card_deck (card.level : Int) with
            | .error e => (some e, g)
            | .ok _t => (some Err.tupleNoFindCard, g)
      else
        (some Err.cannotPurchaseInsufficient, g)

/-! ## Basic lemmas about token caches -/

theorem TokenCache.d_set (tc : TokenCache) (c c2 : Color) (v : Int) :
    (tc.set c v).d c2 = if c2 = c then v else tc.d c2 := rfl

theorem TokenCache.count_set (tc : TokenCache) (c : Color) (v : Int) :
    (tc.set c v).count = tc.count - tc.d c + v := by
  cases c <;> simp [TokenCache.count, allColors, TokenCache.set] <;> ring

theorem TokenCache.count_add_by_name (tc : TokenCache) (c : Color) (n : Int) :
    (tc.add_by_name c n).count = tc.count + n := by
  show (tc.set c (tc.d c + n)).count = _
  rw [TokenCache.count_set]; ring

theorem TokenCache.d_add_by_name (tc : TokenCache) (c : Color) (n : Int) (c2 : Color) :
    (tc.add_by_name c n).d c2 = if c2 = c then tc.d c + n else tc.d c2 := rfl

theorem TokenCache.remove_count_le (tc : TokenCache) (c : Color) (n : Int) (hn : 0 ≤ n) :
    ((tc.remove c n).2).count ≤ tc.count := by
  unfold TokenCache.remove
  split
  · next h => simp only [TokenCache.count_set]; omega
  · simp

theorem count_foldl_add (lst : List Color) : ∀ tc : TokenCache,
    (lst.foldl (fun tc c => tc.add_by_name c 1) tc).count = tc.count + lst.length := by
  induction lst with
  | nil => intro tc; simp [TokenCache.count]
  | cons hd tl ih =>
      intro tc
      simp only [List.foldl_cons, ih, TokenCache.count_add_by_name, List.length_cons]
      push_cast
      ring

/-! ## Claim C3: affordability check -/

/-- Formula taken from the spec's words for claim C3 (refinement comparator):
the sum over all required colors of max(0, required - owned), to be compared
against the owned jokers as one combined budget. -/
def spec_shortfall_sum (cache : TokenCache) (card : DevCard) : Int :=
  (card.cost.map (fun p => max ((p.2 : Int) - cache.d p.1) 0)).sum

theorem tokens_needed_loop_snd (cache : TokenCache) (cost : List (Color × Nat)) :
    ∀ (needed : List (Color × Int)) (jn : Int),
      (tokens_needed_loop cache cost (needed, jn)).2
        = jn + (cost.map (fun p => max ((p.2 : Int) - cache.d p.1) 0)).sum := by
  induction cost with
  | nil => intro needed jn; simp [tokens_needed_loop]
  | cons hd tl ih =>
      intro needed jn
      obtain ⟨g, costC⟩ := hd
      simp only [tokens_needed_loop, List.map_cons, List.sum_cons]
      rw [ih]
      simp only [TokenCache.count_token]
      rcases lt_or_le (cache.d g) (costC : Int) with h | h
      · rw [if_pos h, max_eq_left (by omega)]
        ring
      · rw [if_neg (by omega), max_eq_right (by omega)]
        ring

/-- Claim C3: for every player token cache and every development card,
can_purchase_dev_card returns true iff the aggregated shortfall
sum over all required colors of max(0, required - owned) is at most the
number of owned jokers: the shortfalls form one combined joker budget, they
are not checked per color. -/
theorem splendor_c3_affordability (cache : TokenCache) (card : DevCard) :
    cache.can_purchase_dev_card card = true ↔
      spec_shortfall_sum cache card ≤ cache.count_token Color.yellow := by
  unfold TokenCache.can_purchase_dev_card TokenCache.tokens_needed
  have h := tokens_needed_loop_snd cache card.cost [] 0
  rcases hp : tokens_needed_loop cache card.cost ([], 0) with ⟨needed, jn⟩
  rw [hp] at h
  simp only at h
  subst h
  simp only [spec_shortfall_sum, TokenCache.count_token]
  split
  · next hgt => simp only [Option.isSome_none, Bool.false_eq_true, false_iff]; omega
  · next hle => simp only [Option.isSome_some, true_iff]; omega

/-! ## Claim C4: purchase spends exactly the computed collection -/

/-- Player tokens of the spec's concrete affordability example:
black 2, yellow 1. -/
def c4_cache_example : TokenCache :=
  ⟨fun c => if c = Color.black then 2 else if c = Color.yellow then 1 else 0⟩

/-- Player tokens exposing the purchase slip: black 3, no jokers. -/
def c4_cache_bug : TokenCache :=
  ⟨fun c => if c = Color.black then 3 else 0⟩

/-- A card costing 3 black. -/
def c4_card : DevCard := ⟨1, Color.black, 0, [(Color.black, 3)]⟩

/-- Claim C4, settled against the code.  First half: the spec's concrete
example (tokens black 2 / yellow 1, cost black 3) is affordable and the
purchase leaves 0 black and 0 yellow, as claimed.  Second half (the failing
input): with tokens black 3 and no jokers the affordability check passes, yet
purchase_dev_card raises the insufficient-quantity error for the zero-joker
entry of the computed spend AFTER having removed all 3 black tokens - a
partial spend on a successful affordability check, contradicting the claim
that the only failure is the insufficient-funds error which removes
nothing. -/
theorem splendor_c4_purchase_partial_spend :
    (c4_cache_example.can_purchase_dev_card c4_card = true
      ∧ (c4_cache_example.purchase_dev_card c4_card).1 = none
      ∧ (c4_cache_example.purchase_dev_card c4_card).2.d Color.black = 0
      ∧ (c4_cache_example.purchase_dev_card c4_card).2.d Color.yellow = 0)
    ∧ (c4_cache_bug.can_purchase_dev_card c4_card = true
      ∧ (c4_cache_bug.purchase_dev_card c4_card).1
          = some (Err.tokenQuantityNotFound Color.yellow 0)
      ∧ (c4_cache_bug.purchase_dev_card c4_card).2.d Color.black = 0
      ∧ (c4_cache_bug.purchase_dev_card c4_card).1 ≠ some Err.insufficientFundsCore) := by
  exact ⟨⟨rfl, rfl, rfl, rfl⟩, ⟨rfl, rfl, rfl, by decide⟩⟩

/-! ## Claim C8: remove is all-or-nothing and counts never go negative -/

/-- An abstract add/remove operation on a token collection, for stating the
negative-count invariant over arbitrary operation sequences. -/
inductive TokenOp where
  | add (c : Color) (n : Int)
  | rem (c : Color) (n : Int)

/-- Apply a single operation: add via add_by_name, remove via remove (keeping
the post-state, whether or not the remove raised). -/
def applyTokenOp (tc : TokenCache) : TokenOp → TokenCache
  | .add c n => tc.add_by_name c n
  | .rem c n => (tc.remove c n).2

/-- Apply a sequence of operations left to right. -/
def applyTokenOps (tc : TokenCache) (ops : List TokenOp) : TokenCache :=
  ops.foldl applyTokenOp tc

/-- An add operation with a nonnegative amount (every add call site of the
source passes a count of tokens, never a negative number). -/
def TokenOp.addNonneg : TokenOp → Prop
  | .add _ n => 0 ≤ n
  | .rem _ _ => True

theorem applyTokenOp_nonneg (tc : TokenCache) (op : TokenOp) (hop : op.addNonneg)
    (hnn : ∀ c, 0 ≤ tc.d c) : ∀ c, 0 ≤ (applyTokenOp tc op).d c := by
  intro c
  cases op with
  | add c1 n =>
      simp only [applyTokenOp, TokenCache.d_add_by_name]
      have := hnn c
      have := hnn c1
      simp only [TokenOp.addNonneg] at hop
      split <;> omega
  | rem c1 n =>
      simp only [applyTokenOp, TokenCache.remove]
      split
      · next h => simp only [TokenCache.d_set]; have := hnn c; split <;> omega
      · exact hnn c

theorem applyTokenOps_nonneg (ops : List TokenOp) : ∀ (tc : TokenCache),
    (∀ op ∈ ops, op.addNonneg) → (∀ c, 0 ≤ tc.d c) →
    ∀ c, 0 ≤ (applyTokenOps tc ops).d c := by
  induction ops with
  | nil => intro tc _ hnn c; exact hnn c
  | cons hd tl ih =>
      intro tc hops hnn c
      simp only [applyTokenOps, List.foldl_cons]
      exact ih (applyTokenOp tc hd)
        (fun op hop => hops op (List.mem_cons_of_mem hd hop))
        (applyTokenOp_nonneg tc hd (hops hd (List.mem_cons_self hd tl)) hnn) c

/-- Claim C8: for n >= 1, TokenCache.remove raises the insufficient-quantity
error exactly when the stored count is below n and then leaves the collection
unchanged; on success it decreases exactly that color's count by n; and no
sequence of add (with nonnegative amounts, as at every call site) and remove
operations ever drives any count negative. -/
theorem splendor_c8_remove_all_or_nothing (tc : TokenCache) (c : Color) (n : Int)
    (hn : 1 ≤ n) :
    ((tc.remove c n).1.isSome ↔ tc.d c < n)
    ∧ ((tc.remove c n).1.isSome → (tc.remove c n).2 = tc)
    ∧ ((tc.remove c n).1 = none →
        (tc.remove c n).2.d c = tc.d c - n
        ∧ ∀ c2, c2 ≠ c → (tc.remove c n).2.d c2 = tc.d c2)
    ∧ (∀ ops : List TokenOp, (∀ op ∈ ops, op.addNonneg) → (∀ c2, 0 ≤ tc.d c2) →
        ∀ c2, 0 ≤ (applyTokenOps tc ops).d c2) := by
  refine ⟨?_, ?_, ?_, fun ops => applyTokenOps_nonneg ops tc⟩
  · unfold TokenCache.remove
    split
    · next h => simp only [Option.isSome_none, Bool.false_eq_true, false_iff]; omega
    · next h =>
        simp only [Option.isSome_some, true_iff]
        rcases not_and_or.mp h with h1 | h2
        · push_neg at h1; omega
        · omega
  · unfold TokenCache.remove
    split
    · simp
    · intro _; rfl
  · unfold TokenCache.remove
    split
    · next h =>
        intro _
        constructor
        · simp [TokenCache.d_set]
        · intro c2 hne; simp [TokenCache.d_set, hne]
    · simp

/-- The token cache holding two of every color, for the C8 witness. -/
def c8_cache : TokenCache := ⟨fun _ => 2⟩

/-- Witness for splendor_c8_remove_all_or_nothing at the concrete cache with
two of each color and n = 2. -/
theorem splendor_c8_witness :
    (1 : Int) ≤ 2
    ∧ ((c8_cache.remove Color.black 2).1.isSome ↔ c8_cache.d Color.black < 2) :=
  ⟨by decide, (splendor_c8_remove_all_or_nothing c8_cache Color.black 2 (by decide)).1⟩

/-! ## Claim C9: the facing window of a deck -/

/-- Claim C9: get_facing always returns exactly the first min(count, 4) cards
and never errors, also on short decks; and on any 7-card deck get_facing is
the first four cards, popping index 2 removes exactly that card, and the new
facing window consists of the original indices 0, 1, 3 and 4. -/
theorem splendor_c9_facing_window :
    (∀ d : DevCardDeck,
        d.get_facing = d.l.take UPFACING_CARDS_LEN
        ∧ d.get_facing.length = min d.count UPFACING_CARDS_LEN
        ∧ ∀ i, i < d.get_facing.length → d.get_facing[i]? = d.l[i]?)
    ∧ (∀ (lvl : Nat) (a b c e f g h : DevCard),
        (DevCardDeck.mk lvl [a, b, c, e, f, g, h]).get_facing = [a, b, c, e]
        ∧ (DevCardDeck.mk lvl [a, b, c, e, f, g, h]).pop_by_idx 2
            = .ok (c, ⟨lvl, [a, b, e, f, g, h]⟩)
        ∧ (DevCardDeck.mk lvl [a, b, e, f, g, h]).get_facing = [a, b, e, f]) := by
  constructor
  · intro d
    have hface : d.get_facing = d.l.take UPFACING_CARDS_LEN := by
      unfold DevCardDeck.get_facing DevCardDeck.count
      rcases Nat.le_total d.l.length UPFACING_CARDS_LEN with hle | hle
      · rw [Nat.min_eq_left hle, List.take_length, List.take_of_length_le hle]
      · rw [Nat.min_eq_right hle]
    refine ⟨hface, ?_, ?_⟩
    · rw [hface, List.length_take, Nat.min_comm]
      rfl
    · intro i h
      rw [hface] at h ⊢
      rw [List.length_take] at h
      exact List.getElem?_take_of_lt (lt_of_lt_of_le h (Nat.min_le_left _ _))
  · intro lvl a b c e f g h
    exact ⟨rfl, rfl, rfl⟩

/-! ## Claim C6: history append and revert contract -/

/-- Claim C6: for both the game-level and the player-level history, append
never fails and afterwards the current snapshot is the appended one with the
one-based state number one higher; revert(n) fails exactly when n <= 0 or n
exceeds the length, and otherwise truncates to the first n snapshots so that
the state number is n and the current snapshot is the one that sat at
one-based position n before the revert. -/
theorem splendor_c6_history_contract :
    (∀ (h : GameStateHistory) (s : GameState) (n : Int),
        ((h.append s).get_current_state = some s
          ∧ (h.append s).get_current_state_no = h.get_current_state_no + 1)
        ∧ (isError (h.revert n) = true ↔ n ≤ 0 ∨ (h.l.length : Int) < n)
        ∧ (1 ≤ n → n ≤ (h.l.length : Int) →
            ∃ h2, h.revert n = .ok h2
              ∧ (h2.get_current_state_no : Int) = n
              ∧ h2.get_current_state = h.l[n.toNat - 1]?))
    ∧ (∀ (h : PlayerStateHistory) (s : PlayerState) (n : Int),
        ((h.append s).get_current_state = some s
          ∧ (h.append s).get_current_state_no = h.get_current_state_no + 1)
        ∧ (isError (h.revert n) = true ↔ n ≤ 0 ∨ (h.l.length : Int) < n)
        ∧ (1 ≤ n → n ≤ (h.l.length : Int) →
            ∃ h2, h.revert n = .ok h2
              ∧ (h2.get_current_state_no : Int) = n
              ∧ h2.get_current_state = h.l[n.toNat - 1]?)) := by
  constructor
  · intro h s n
    refine ⟨⟨?_, ?_⟩, ?_, ?_⟩
    · simp [GameStateHistory.append, GameStateHistory.get_current_state,
        List.getLast?_concat]
    · simp [GameStateHistory.append, GameStateHistory.get_current_state_no]
    · unfold GameStateHistory.revert
      split_ifs with h1 h2 <;> simp [isError] <;> omega
    · intro hn1 hn2
      have h1 : ¬ n ≤ 0 := by omega
      have h2 : ¬ n > (h.l.length : Int) := by omega
      refine ⟨⟨h.l.take n.toNat⟩, ?_, ?_, ?_⟩
      · simp [GameStateHistory.revert, h1, h2]
      · have hle : n.toNat ≤ h.l.length := by omega
        simp only [GameStateHistory.get_current_state_no, List.length_take,
          Nat.min_eq_left hle]
        omega
      · simp only [GameStateHistory.get_current_state]
        rw [List.getLast?_eq_getElem?, List.length_take,
          Nat.min_eq_left (by omega : n.toNat ≤ h.l.length)]
        exact List.getElem?_take_of_lt (by omega)
  · intro h s n
    refine ⟨⟨?_, ?_⟩, ?_, ?_⟩
    · simp [PlayerStateHistory.append, PlayerStateHistory.get_current_state,
        List.getLast?_concat]
    · simp [PlayerStateHistory.append, PlayerStateHistory.get_current_state_no]
    · unfold PlayerStateHistory.revert
      split_ifs with h1 h2 <;> simp [isError] <;> omega
    · intro hn1 hn2
      have h1 : ¬ n ≤ 0 := by omega
      have h2 : ¬ n > (h.l.length : Int) := by omega
      refine ⟨⟨h.l.take n.toNat⟩, ?_, ?_, ?_⟩
      · simp [PlayerStateHistory.revert, h1, h2]
      · have hle : n.toNat ≤ h.l.length := by omega
        simp only [PlayerStateHistory.get_current_state_no, List.length_take,
          Nat.min_eq_left hle]
        omega
      · simp only [PlayerStateHistory.get_current_state]
        rw [List.getLast?_eq_getElem?, List.length_take,
          Nat.min_eq_left (by omega : n.toNat ≤ h.l.length)]
        exact List.getElem?_take_of_lt (by omega)

/-- A concrete game state for the C6 witness. -/
def c6_gs : GameState := GameState.mk3 ⟨1, []⟩ ⟨2, []⟩ ⟨3, []⟩ [] game_token_cache_2p

/-- A two-entry game history for the C6 witness. -/
def c6_hist : GameStateHistory := ⟨[c6_gs, c6_gs]⟩

/-- Witness for splendor_c6_history_contract: the revert-success clause at the
two-entry history and n = 1. -/
theorem splendor_c6_witness :
    (1 : Int) ≤ 1 ∧ (1 : Int) ≤ (c6_hist.l.length : Int)
    ∧ ∃ h2, c6_hist.revert 1 = .ok h2
        ∧ (h2.get_current_state_no : Int) = 1
        ∧ h2.get_current_state = c6_hist.l[(1 : Int).toNat - 1]? :=
  ⟨by decide, by decide,
    (splendor_c6_history_contract.1 c6_hist c6_gs 1).2.2 (by decide) (by decide)⟩

/-! ## Claim C1: atomicity and typed errors of failing transitions -/

/-- Player tokens for the C1 failing input: black 2 and yellow 1 (well within
the ceiling and affordable for the card below). -/
def c1_cache : TokenCache :=
  ⟨fun c => if c = Color.black then 2 else if c = Color.yellow then 1 else 0⟩

/-- The acting player's state for the C1 failing input. -/
def c1_player_state : PlayerState := { PlayerState.initial with token_cache := c1_cache }

/-- A fresh 2-player game (empty decks for concreteness; the shuffled deck
contents never influence the failing path) with the acting player seeded with
one initial state, as the doctests of player.py do. -/
def c1_game : Game :=
  { game_state_history := ⟨[GameState.mk3 ⟨1, []⟩ ⟨2, []⟩ ⟨3, []⟩ [] game_token_cache_2p]⟩
    player := ⟨[c1_player_state]⟩ }

/-- A level-3 card costing one black token; it is affordable for the player
above and present in no deck, so the card-findable precondition fails. -/
def c1_card : DevCard := ⟨3, Color.black, 0, [(Color.black, 1)]⟩

/-- Claim C1, settled against the code at the failing input: a purchase whose
affordability precondition passes but whose card-findable precondition fails
does leave both histories untouched, but it raises the no-such-deck error
(GameState.get_dev_card_deck trips over the tuple-in-a-singleton-list layout
of GameState.__init__), not the card-not-found error the claim requires, so
"the corresponding typed error" part of the claim fails on the code. -/
theorem splendor_c1_purchase_wrong_error :
    c1_game.action_purchase_dev_card c1_card = (some Err.noSuchDeck, c1_game)
    ∧ c1_cache.can_purchase_dev_card c1_card = true
    ∧ Err.noSuchDeck ≠ Err.cardNotFound
    ∧ Err.noSuchDeck ≠ Err.cannotPurchaseInsufficient := by
  exact ⟨rfl, rfl, by decide, by decide⟩

/-! ## Claim C2: end-to-end take-three scenario and revert independence -/

/-- The history pair after player A of a fresh 2-player game takes the tokens
black, blue and green: parameterised by the (shuffled, hence arbitrary) decks
and nobles, which the action never inspects. -/
def c2_after (d1 d2 d3 : DevCardDeck) (nobles : List Noble) : Option Err × Game :=
  Game.action_take_three_tokens
    { game_state_history := ⟨[GameState.mk3 d1 d2 d3 nobles game_token_cache_2p]⟩
      player := ⟨[PlayerState.initial]⟩ }
    Color.black Color.blue Color.green

/-- Claim C2, settled against the code.  The action succeeds, the shared
pool's black count drops from 4 to 3 and player A's cache count becomes 3, as
claimed; but after reverting the game history to index 1 the shared pool's
black count is STILL 3, not the claimed 4: the action removed the tokens in
place from the cache object of the initial snapshot before cloning, so the
snapshot kept in history position 1 was itself mutated (the two history
entries alias one cache object).  The player history is indeed untouched by
the revert. -/
theorem splendor_c2_revert_does_not_restore (d1 d2 d3 : DevCardDeck) (nobles : List Noble) :
    (c2_after d1 d2 d3 nobles).1 = none
    ∧ ((c2_after d1 d2 d3 nobles).2.game_state_history.get_current_state.map
        (fun gs => gs.game_token_cache.d Color.black)) = some 3
    ∧ ((c2_after d1 d2 d3 nobles).2.player.get_current_state.map
        (fun ps => ps.token_cache.count)) = some 3
    ∧ (∃ h2, (c2_after d1 d2 d3 nobles).2.game_state_history.revert 1 = .ok h2
        ∧ (h2.get_current_state.map (fun gs => gs.game_token_cache.d Color.black))
            = some 3)
    ∧ (some (3 : Int) ≠ some (4 : Int))
    ∧ (c2_after d1 d2 d3 nobles).2.player.l.length = 2 := by
  refine ⟨rfl, rfl, rfl, ⟨⟨[{ GameState.mk3 d1 d2 d3 nobles game_token_cache_2p with
    game_token_cache := (((game_token_cache_2p.remove Color.black 1).2.remove
      Color.blue 1).2.remove Color.green 1).2 }]⟩, rfl, rfl⟩, by decide, rfl⟩

/-! ## Claim C7: the reserve-card action -/

/-- A fresh 2-player game with a seeded initial player state (empty reserve,
empty cache: every reserve precondition about the player holds). -/
def c7_game : Game :=
  { game_state_history := ⟨[GameState.mk3 ⟨1, []⟩ ⟨2, []⟩ ⟨3, []⟩ [] game_token_cache_2p]⟩
    player := ⟨[PlayerState.initial]⟩ }

/-- A level-1 card. -/
def c7_card1 : DevCard := ⟨1, Color.blue, 0, [(Color.black, 3)]⟩

/-- A level-2 card. -/
def c7_card2 : DevCard := ⟨2, Color.blue, 2, [(Color.blue, 5)]⟩

/-- A level-3 card. -/
def c7_card3 : DevCard := ⟨3, Color.red, 4, [(Color.red, 7)]⟩

/-- Claim C7, settled against the code at the failing input: with the
player's reserve below its ceiling and room in the token cache, reserving a
card of any level never removes a card from a deck, never appends to the
reserve and never grants a joker; the deck lookup fails first, because
GameState.__init__ stores dev_card_decks = [(deck1, deck2, deck3)] - a
one-element list holding a tuple - so level 3 trips the bounds guard
(no-such-deck), level 2 hits an uncaught IndexError and level 1 returns the
tuple, on which the find_card attribute access raises AttributeError.  None
of these is one of the claim's three errors and the histories are left as
they were. -/
theorem splendor_c7_reserve_always_fails :
    c7_game.action_reserve_dev_card c7_card3 = (some Err.noSuchDeck, c7_game)
    ∧ c7_game.action_reserve_dev_card c7_card2 = (some Err.listIndexError, c7_game)
    ∧ c7_game.action_reserve_dev_card c7_card1 = (some Err.tupleNoFindCard, c7_game)
    ∧ Err.noSuchDeck ≠ Err.playerAtMaxReserve
    ∧ Err.noSuchDeck ≠ Err.tokenCacheNoSpaceOne
    ∧ Err.noSuchDeck ≠ Err.playerCacheNoSpace 1
    ∧ Err.noSuchDeck ≠ Err.cardNotFound := by
  exact ⟨rfl, rfl, rfl, by decide, by decide, by decide, by decide⟩

/-! ## Claim C5: the take-two-tokens action -/

theorem getLast?_dropLast_append_two {α : Type _} (l : List α) (x : α) :
    (l.dropLast ++ [x, x]).getLast? = some x := by
  rw [show [x, x] = [x] ++ [x] from rfl, ← List.append_assoc]
  exact List.getLast?_concat _

/-- Claim C5 as amended: for every non-joker color and an acting player with
room for two more tokens, take-two fails with the pool-exhausted
(not-enough-tokens) error when the shared pool holds fewer than 2 of the
color, fails with the stack-too-low error when it holds 2 or 3 (in particular
exactly 3), and succeeds when it holds exactly 4, leaving exactly 2 of the
color in the shared pool and adding 2 to the player's pool. -/
theorem splendor_c5_take_two_amended (prevG : List GameState) (prevP : List PlayerState)
    (gs : GameState) (ps : PlayerState) (c : Color)
    (hj : is_joker c = false)
    (hroom : ps.token_cache.count + 2 ≤ PLAYER_TOKEN_CACHE_MAX) :
    (gs.game_token_cache.d c < 2 →
      Game.action_take_two_tokens ⟨⟨prevG ++ [gs]⟩, ⟨prevP ++ [ps]⟩⟩ c
        = (some (Err.notEnoughTokens c), ⟨⟨prevG ++ [gs]⟩, ⟨prevP ++ [ps]⟩⟩))
    ∧ (2 ≤ gs.game_token_cache.d c → gs.game_token_cache.d c < 4 →
      Game.action_take_two_tokens ⟨⟨prevG ++ [gs]⟩, ⟨prevP ++ [ps]⟩⟩ c
        = (some Err.stackTooLow, ⟨⟨prevG ++ [gs]⟩, ⟨prevP ++ [ps]⟩⟩))
    ∧ (gs.game_token_cache.d c = 4 →
      (Game.action_take_two_tokens ⟨⟨prevG ++ [gs]⟩, ⟨prevP ++ [ps]⟩⟩ c).1 = none
      ∧ ((Game.action_take_two_tokens ⟨⟨prevG ++ [gs]⟩, ⟨prevP ++ [ps]⟩⟩ c).2.game_state_history.get_current_state.map
          (fun x => x.game_token_cache.d c)) = some 2
      ∧ ((Game.action_take_two_tokens ⟨⟨prevG ++ [gs]⟩, ⟨prevP ++ [ps]⟩⟩ c).2.player.get_current_state.map
          (fun x => x.token_cache.d c)) = some (ps.token_cache.d c + 2)
      ∧ ((Game.action_take_two_tokens ⟨⟨prevG ++ [gs]⟩, ⟨prevP ++ [ps]⟩⟩ c).2.player.get_current_state.map
          (fun x => x.token_cache.count)) = some (ps.token_cache.count + 2)) := by
  have hcurG : (⟨prevG ++ [gs]⟩ : GameStateHistory).get_current_state = some gs := by
    simp [GameStateHistory.get_current_state, List.getLast?_concat]
  have hcurP : (⟨prevP ++ [ps]⟩ : PlayerStateHistory).get_current_state = some ps := by
    simp [PlayerStateHistory.get_current_state, List.getLast?_concat]
  have hfit : Player.can_fit_tokens ⟨prevP ++ [ps]⟩ 2 = .ok true := by
    unfold Player.can_fit_tokens
    rw [if_neg (by omega), hcurP]
    simp [hroom]
  refine ⟨?_, ?_, ?_⟩
  · intro hlt
    unfold Game.action_take_two_tokens
    simp only [hj, Bool.false_eq_true, if_false, hfit, hcurG, TokenCache.count_token]
    rw [if_pos hlt]
  · intro hge hlt
    unfold Game.action_take_two_tokens
    simp only [hj, Bool.false_eq_true, if_false, hfit, hcurG, TokenCache.count_token]
    rw [if_neg (by omega), if_pos (by simpa [TAKE_TWO_TOKENS_MINIMUM] using hlt)]
  · intro h4
    have hplayer : Player.action_take_two_tokens ⟨prevP ++ [ps]⟩ c
        = (none, ⟨(prevP ++ [ps]).dropLast ++
            [{ ps with token_cache := (ps.token_cache.add_by_name c 1).add_by_name c 1 },
             { ps with token_cache := (ps.token_cache.add_by_name c 1).add_by_name c 1 }]⟩) := by
      unfold Player.action_take_two_tokens Player.action_take_tokens
      simp only [hj, Bool.false_eq_true, if_false, hcurP, List.length_cons,
        List.length_nil, List.foldl_cons, List.foldl_nil]
      rw [if_pos (by push_cast; omega)]
    have hremove : game_remove_tokens [c, c] gs.game_token_cache
        = (none, (gs.game_token_cache.set c 3).set c 2) := by
      unfold game_remove_tokens game_remove_tokens game_remove_tokens
      unfold TokenCache.remove
      rw [if_pos (by omega)]
      simp only [h4, TokenCache.d_set, if_pos rfl]
      rw [if_pos (by norm_num)]
      norm_num
    unfold Game.action_take_two_tokens
    simp only [hj, Bool.false_eq_true, if_false, hfit, hcurG, TokenCache.count_token]
    rw [if_neg (by omega), if_neg (by simp [TAKE_TWO_TOKENS_MINIMUM]; omega), hplayer,
      hremove]
    refine ⟨rfl, ?_, ?_, ?_⟩
    · simp only [GameStateHistory.get_current_state, getLast?_dropLast_append_two,
        Option.map_some]
      simp [TokenCache.d_set]
    · simp only [PlayerStateHistory.get_current_state, getLast?_dropLast_append_two,
        Option.map_some']
      simp only [TokenCache.d_add_by_name, eq_self_iff_true, if_true, Option.some_inj]
      omega
    · simp only [PlayerStateHistory.get_current_state, getLast?_dropLast_append_two,
        Option.map_some']
      simp only [TokenCache.count_add_by_name, Option.some_inj]
      omega

/-- A fresh game whose shared pool holds exactly 1 black token (4 of
everything else), with a seeded initial player state. -/
def c5_game_pool1 : Game :=
  { game_state_history :=
      ⟨[GameState.mk3 ⟨1, []⟩ ⟨2, []⟩ ⟨3, []⟩ []
          ⟨fun c => if c = Color.black then 1 else 4⟩]⟩
    player := ⟨[PlayerState.initial]⟩ }

/-- Counterexample to claim C5 as stated: with 1 black token in the shared
pool (fewer than 4, the player a non-joker color and plenty of room), the
take-two action fails, but with the not-enough-tokens (pool-exhausted) error
of the dedicated count < 2 guard, not the stack-too-low error the claim
promises for every pool below 4. -/
theorem splendor_c5_counterexample :
    c5_game_pool1.action_take_two_tokens Color.black
      = (some (Err.notEnoughTokens Color.black), c5_game_pool1)
    ∧ Err.notEnoughTokens Color.black ≠ Err.stackTooLow := by
  exact ⟨rfl, by decide⟩

/-- Shared pool with exactly 4 of every color, for the C5 witness. -/
def c5_pool4_gs : GameState :=
  GameState.mk3 ⟨1, []⟩ ⟨2, []⟩ ⟨3, []⟩ [] ⟨fun _ => 4⟩

/-- Witness for splendor_c5_take_two_amended: the success clause at a pool of
exactly 4 black and a fresh player. -/
theorem splendor_c5_witness :
    is_joker Color.black = false
    ∧ PlayerState.initial.token_cache.count + 2 ≤ PLAYER_TOKEN_CACHE_MAX
    ∧ c5_pool4_gs.game_token_cache.d Color.black = 4
    ∧ (Game.action_take_two_tokens ⟨⟨[] ++ [c5_pool4_gs]⟩, ⟨[] ++ [PlayerState.initial]⟩⟩
        Color.black).1 = none :=
  ⟨by decide, by decide, by decide,
    ((splendor_c5_take_two_amended [] [] c5_pool4_gs PlayerState.initial Color.black
      (by decide) (by decide)).2.2 (by decide)).1⟩

/-! ## Claim C10: the 10-token ceiling of the player cache -/

theorem alistAdd_nonneg (m : List (Color × Int)) (c : Color) (n : Int)
    (hm : ∀ p ∈ m, 0 ≤ p.2) (hn : 0 ≤ n) :
    ∀ p ∈ alistAdd m c n, 0 ≤ p.2 := by
  intro p hp
  unfold alistAdd at hp
  split at hp
  · rcases List.mem_map.mp hp with ⟨q, hq, hpq⟩
    have hq2 := hm q hq
    by_cases hqc : q.1 = c
    · rw [if_pos hqc] at hpq
      subst hpq
      simpa using by omega
    · rw [if_neg hqc] at hpq
      exact hpq ▸ hq2
  · rcases List.mem_append.mp hp with hin | hin
    · exact hm p hin
    · rcases List.mem_singleton.mp hin with rfl
      exact hn

theorem tokens_needed_loop_nonneg (cache : TokenCache) (hcache : ∀ c, 0 ≤ cache.d c)
    (cost : List (Color × Nat)) :
    ∀ (needed : List (Color × Int)) (jn : Int),
      (∀ p ∈ needed, 0 ≤ p.2) → 0 ≤ jn →
      (∀ p ∈ (tokens_needed_loop cache cost (needed, jn)).1, 0 ≤ p.2)
      ∧ 0 ≤ (tokens_needed_loop cache cost (needed, jn)).2 := by
  induction cost with
  | nil => intro needed jn hneed hjn; exact ⟨hneed, hjn⟩
  | cons hd tl ih =>
      intro needed jn hneed hjn
      obtain ⟨g, costC⟩ := hd
      simp only [tokens_needed_loop, TokenCache.count_token]
      apply ih
      · exact alistAdd_nonneg _ _ _ hneed (le_min (Int.natCast_nonneg costC) (hcache g))
      · split <;> omega

theorem tokens_needed_nonneg (cache : TokenCache) (card : DevCard)
    (hcache : ∀ c, 0 ≤ cache.d c) (lst : List (Color × Int))
    (hsome : cache.tokens_needed card = some lst) :
    ∀ p ∈ lst, 0 ≤ p.2 := by
  simp only [TokenCache.tokens_needed] at hsome
  split at hsome
  · exact absurd hsome (by simp)
  · next hle =>
      have h := tokens_needed_loop_nonneg cache hcache card.cost [] 0 (by simp) le_rfl
      have hlst : lst = alistAdd (tokens_needed_loop cache card.cost ([], 0)).1
          Color.yellow (tokens_needed_loop cache card.cost ([], 0)).2 := by
        exact (Option.some_inj.mp hsome).symm
      rw [hlst]
      exact alistAdd_nonneg _ _ _ h.1 h.2

theorem purchase_loop_count_le (entries : List (Color × Int)) :
    ∀ tc : TokenCache, (∀ p ∈ entries, 0 ≤ p.2) →
      ((purchase_loop entries tc).2).count ≤ tc.count := by
  induction entries with
  | nil => intro tc _; exact le_rfl
  | cons hd tl ih =>
      intro tc hent
      obtain ⟨g, n⟩ := hd
      have hn : (0 : Int) ≤ n := hent (g, n) (List.mem_cons_self _ _)
      have hstep := TokenCache.remove_count_le tc g n hn
      simp only [purchase_loop]
      rcases hrem : tc.remove g n with ⟨oe, tc'⟩
      rw [hrem] at hstep
      cases oe with
      | some e => exact hstep
      | none =>
          refine le_trans (ih tc' ?_) hstep
          intro p hp
          exact hent p (List.mem_cons_of_mem _ hp)

theorem purchase_dev_card_count_le (cache : TokenCache) (card : DevCard)
    (hcache : ∀ c, 0 ≤ cache.d c) :
    ((cache.purchase_dev_card card).2).count ≤ cache.count := by
  unfold TokenCache.purchase_dev_card
  rcases htn : cache.tokens_needed card with _ | lst
  · exact le_rfl
  · exact purchase_loop_count_le lst cache (tokens_needed_nonneg cache card hcache lst htn)

/-- Claim C10: for a player whose current token cache respects the 10-token
ceiling (with nonnegative counts, the data-model invariant), every
player-level action preserves the ceiling: take-tokens (and hence take-three
and take-two) fails without touching anything when its tokens would overflow
the ceiling and otherwise lands exactly at count + k <= 10; reserve fails
without touching anything when one more token would overflow; purchase only
ever removes tokens; so every current snapshot reachable by one action still
respects the ceiling. -/
theorem splendor_c10_cache_ceiling (p : PlayerStateHistory) (ps : PlayerState)
    (hcur : p.get_current_state = some ps)
    (hnn : ∀ c, 0 ≤ ps.token_cache.d c)
    (hle : ps.token_cache.count ≤ PLAYER_TOKEN_CACHE_MAX) :
    (∀ lst : List Color,
        (PLAYER_TOKEN_CACHE_MAX < ps.token_cache.count + lst.length →
          Player.action_take_tokens p lst = (some (Err.playerCacheNoSpace lst.length), p))
        ∧ (∀ ps2, (Player.action_take_tokens p lst).2.get_current_state = some ps2 →
            ps2.token_cache.count ≤ PLAYER_TOKEN_CACHE_MAX))
    ∧ (∀ c1 c2 c3 ps2,
        (Player.action_take_three_tokens p c1 c2 c3).2.get_current_state = some ps2 →
          ps2.token_cache.count ≤ PLAYER_TOKEN_CACHE_MAX)
    ∧ (∀ c ps2, (Player.action_take_two_tokens p c).2.get_current_state = some ps2 →
        ps2.token_cache.count ≤ PLAYER_TOKEN_CACHE_MAX)
    ∧ (∀ card : DevCard,
        (PLAYER_TOKEN_CACHE_MAX < ps.token_cache.count + 1 →
          ∃ e, Player.action_reserve_dev_card p card = (some e, p))
        ∧ (∀ ps2, (Player.action_reserve_dev_card p card).2.get_current_state = some ps2 →
            ps2.token_cache.count ≤ PLAYER_TOKEN_CACHE_MAX))
    ∧ (∀ (card : DevCard) ps2,
        (Player.action_purchase_dev_card p card).2.get_current_state = some ps2 →
          ps2.token_cache.count ≤ PLAYER_TOKEN_CACHE_MAX) := by
  have base : ∀ ps2, p.get_current_state = some ps2 →
      ps2.token_cache.count ≤ PLAYER_TOKEN_CACHE_MAX := by
    intro ps2 h2
    rw [hcur] at h2
    rw [← Option.some_inj.mp h2]
    exact hle
  have htake : ∀ lst : List Color,
      (PLAYER_TOKEN_CACHE_MAX < ps.token_cache.count + lst.length →
        Player.action_take_tokens p lst = (some (Err.playerCacheNoSpace lst.length), p))
      ∧ (∀ ps2, (Player.action_take_tokens p lst).2.get_current_state = some ps2 →
          ps2.token_cache.count ≤ PLAYER_TOKEN_CACHE_MAX) := by
    intro lst
    constructor
    · intro hover
      simp only [Player.action_take_tokens, hcur]
      rw [if_neg (by omega)]
    · intro ps2 h2
      simp only [Player.action_take_tokens, hcur] at h2
      by_cases hfit : ps.token_cache.count + (lst.length : Int) ≤ PLAYER_TOKEN_CACHE_MAX
      · rw [if_pos hfit] at h2
        simp only [PlayerStateHistory.get_current_state,
          getLast?_dropLast_append_two, Option.some_inj] at h2
        rw [← h2]
        simp only [count_foldl_add]
        omega
      · rw [if_neg hfit] at h2
        exact base ps2 h2
  refine ⟨htake, ?_, ?_, ?_, ?_⟩
  · intro c1 c2 c3 ps2 h2
    unfold Player.action_take_three_tokens at h2
    split_ifs at h2 with hd hj
    · exact base ps2 h2
    · exact base ps2 h2
    · exact (htake [c1, c2, c3]).2 ps2 h2
  · intro c ps2 h2
    unfold Player.action_take_two_tokens at h2
    split_ifs at h2 with hj
    · exact base ps2 h2
    · exact (htake [c, c]).2 ps2 h2
  · intro card
    constructor
    · intro hover
      simp only [Player.action_reserve_dev_card, hcur]
      by_cases hres : ps.dev_card_reserve.is_max
      · rw [if_pos hres]
        exact ⟨_, rfl⟩
      · rw [if_neg hres, if_pos (by simp [TokenCache.count_until_max]; omega)]
        exact ⟨_, rfl⟩
    · intro ps2 h2
      simp only [Player.action_reserve_dev_card, hcur] at h2
      split_ifs at h2 with h1 hsp
      · exact base ps2 h2
      · exact base ps2 h2
      · simp only [PlayerStateHistory.get_current_state,
          getLast?_dropLast_append_two, Option.some_inj] at h2
        rw [← h2]
        simp only [TokenCache.count_add_by_name]
        simp only [TokenCache.count_until_max, not_lt] at hsp
        omega
  · intro card ps2 h2
    simp only [Player.action_purchase_dev_card, hcur] at h2
    by_cases hcp : ps.token_cache.can_purchase_dev_card card
    · rw [if_pos hcp] at h2
      have hmono := purchase_dev_card_count_le ps.token_cache card hnn
      rcases hpd : ps.token_cache.purchase_dev_card card with ⟨oe, cache2⟩
      rw [hpd] at h2 hmono
      cases oe with
      | some e =>
          simp only [PlayerStateHistory.get_current_state, List.getLast?_concat,
            Option.some_inj] at h2
          rw [← h2]
          exact le_trans hmono hle
      | none =>
          simp only [PlayerStateHistory.get_current_state,
            getLast?_dropLast_append_two, Option.some_inj] at h2
          rw [← h2]
          exact le_trans hmono hle
    · rw [if_neg hcp] at h2
      exact base ps2 h2

/-- Witness for splendor_c10_cache_ceiling: a fresh player (empty cache,
count 0 <= 10) trying to take eleven black tokens fails and changes
nothing. -/
theorem splendor_c10_witness :
    Player.action_take_tokens ⟨[PlayerState.initial]⟩ (List.replicate 11 Color.black)
      = (some (Err.playerCacheNoSpace 11), ⟨[PlayerState.initial]⟩) := by
  have h := (splendor_c10_cache_ceiling ⟨[PlayerState.initial]⟩ PlayerState.initial
    rfl (fun c => by cases c <;> decide) (by decide)).1 (List.replicate 11 Color.black)
  exact h.1 (by decide)

/-- A concrete 7-card deck for the C9 witness. -/
def c9_deck : DevCardDeck :=
  ⟨1, [⟨1, Color.black, 0, []⟩, ⟨1, Color.black, 1, []⟩, ⟨1, Color.blue, 2, []⟩,
       ⟨1, Color.red, 3, []⟩, ⟨1, Color.red, 4, []⟩, ⟨1, Color.green, 5, []⟩,
       ⟨1, Color.white, 6, []⟩]⟩

/-- Witness for splendor_c9_facing_window: the pointwise-agreement clause at
the concrete 7-card deck and index 0. -/
theorem splendor_c9_witness :
    0 < c9_deck.get_facing.length ∧ c9_deck.get_facing[0]? = c9_deck.l[0]? :=
  ⟨by decide, (splendor_c9_facing_window.1 c9_deck).2.2 0 (by decide)⟩
